import Mathlib

/-!
Verification of the KU SG 2.45 250 A device protocol handler
(pymeasure/instruments/kuhneelectronic/kusg245_250a.py).

The handler is embedded shallowly:
* received byte frames are `List Nat` (one entry per byte, each < 256);
* command strings and reply tokens are `String`;
* Python floats are modelled as exact rationals (`ℚ`);
* fallible operations return `Except String α`, the string being the
  exception message raised by the Python code;
* the serial exchange performed by `write`, `turn_on` and `shutdown` is
  modelled as a function from the queue of reply tokens the device will
  produce to the trace of wire events plus the remaining queue or an error.

Python builtin semantics embedded here: `int.from_bytes` with no explicit
byteorder argument defaults to big-endian (Python >= 3.11); `round` uses
round-half-to-even; `int()` on a float truncates toward zero; `"%03d"`
zero-pads decimal formatting.
-/

deriving instance DecidableEq for Except

namespace Kusg

/-- The termination byte: `"\r".encode()[0] = 13`. -/
def termination_character : Nat := 13

/-- Python `hex(n)` for a nonnegative `n`: `"0x"` followed by lowercase
hexadecimal digits. -/
def pyHex (n : Nat) : String := "0x" ++ (Nat.toDigits 16 n).asString

/-- Python `str(n)` for a natural number: decimal digits. -/
def pyStr (n : Nat) : String := (Nat.toDigits 10 n).asString

/-- Source `_has_correct_termination_character(b)`:
`b[-1] == termination_character.encode(encoding=encoding)[0]`. -/
def has_correct_termination_character (b : List Nat) : Bool :=
  b.getLastD 0 == termination_character

/-- Source `_err_msg_invalid_termination_character(b)`:
the f-string `"Invalid termination character received: " + hex(b[-1])`. -/
def err_msg_invalid_termination_character (b : List Nat) : String :=
  "Invalid termination character received: " ++ pyHex (b.getLastD 0)

/-- Python `int.from_bytes(b)` with the default byteorder, which is
big-endian (most significant byte first). -/
def int_from_bytes (b : List Nat) : Nat :=
  b.foldl (fun acc d => acc * 256 + d) 0

/-- Modelled from the spec: the little-endian decoding the spec prescribes
in section 4.2 ("all little-endian unsigned integers over the
non-termination bytes").  Used only to compare against the decoding the
source actually performs. -/
def int_from_bytes_le (b : List Nat) : Nat :=
  b.reverse.foldl (fun acc d => acc * 256 + d) 0

/-- Python `str.endswith(t)` for byte-for-byte character lists. -/
def ends_with (s t : String) : Bool :=
  s.data.drop (s.data.length - t.data.length) == t.data

/-- Source `_is_expecting_acknowledgement(command)`: `False` for the fixed
allow-list `["v", "5", "8", "6", "7", "T"]` and for commands ending in
`"?"`, `True` otherwise. -/
def is_expecting_acknowledgement (command : String) : Bool :=
  if command ∈ ["v", "5", "8", "6", "7", "T"] then false
  else if ends_with command "?" then false
  else true

/-- One observable action on the serial line: a command written, a reply
token read, or a fixed delay (`time.sleep`, in milliseconds). -/
inductive Event where
  | wr : String → Event
  | rd : String → Event
  | sleep : Nat → Event
deriving DecidableEq

/-- Source `Kusg245_250A.write(command)`: write the command to the adapter;
when the command expects an acknowledgement, read one reply token and raise
`ConnectionError("Expected acknowledgment.")` unless it is `"A"`.  The
argument is the queue of reply tokens the device will produce; the result
is the event trace together with the remaining queue, or the raised error. -/
def write (replies : List String) (command : String) :
    List Event × Except String (List String) :=
  if is_expecting_acknowledgement command then
    match replies with
    | [] => ([Event.wr command], Except.error "read blocked: no reply available")
    | tok :: rest =>
      ([Event.wr command, Event.rd tok],
        if tok = "A" then Except.ok rest
        else Except.error "Expected acknowledgment.")
  else ([Event.wr command], Except.ok replies)

/-- Source `Kusg245_250A.shutdown()`: `self.rf_enabled = False` (command
`"o"`) then `self.bias_enabled = False` (command `"x"`); an exception
raised by the first write propagates before the second write happens. -/
def shutdown (replies : List String) : List Event × Except String (List String) :=
  match write replies "o" with
  | (ev, Except.error e) => (ev, Except.error e)
  | (ev, Except.ok r1) =>
    match write r1 "x" with
    | (ev2, res) => (ev ++ ev2, res)

/-- Source `Kusg245_250A.turn_on()`: `self.bias_enabled = True` (command
`"X"`), then `time.sleep(0.500)`, then `self.rf_enabled = True` (command
`"O"`); an exception raised by the first write propagates before the sleep
and the second write. -/
def turn_on (replies : List String) : List Event × Except String (List String) :=
  match write replies "X" with
  | (ev, Except.error e) => (ev, Except.error e)
  | (ev, Except.ok r1) =>
    match write r1 "O" with
    | (ev2, res) => (ev ++ [Event.sleep 500] ++ ev2, res)

/-- Source `Kusg245_250A.voltage_5v`: command `"5"`, 3 received bytes,
`103.0 / 4700.0 * int.from_bytes(b[:2])` on good framing, else
`ConnectionError`. -/
def voltage_5v (b : List Nat) : Except String ℚ :=
  if has_correct_termination_character b then
    Except.ok (103 / 4700 * (int_from_bytes (b.take 2) : ℚ))
  else Except.error (err_msg_invalid_termination_character b)

/-- Source `Kusg245_250A.voltage_32v`: command `"8"`, 3 received bytes,
`1282.0 / 8200.0 * int.from_bytes(b[:2])` on good framing. -/
def voltage_32v (b : List Nat) : Except String ℚ :=
  if has_correct_termination_character b then
    Except.ok (1282 / 8200 * (int_from_bytes (b.take 2) : ℚ))
  else Except.error (err_msg_invalid_termination_character b)

/-- Source `Kusg245_250A.power_forward`: command `"6"`, 2 received bytes,
`int.from_bytes(b[:1])` on good framing. -/
def power_forward (b : List Nat) : Except String Nat :=
  if has_correct_termination_character b then
    Except.ok (int_from_bytes (b.take 1))
  else Except.error (err_msg_invalid_termination_character b)

/-- Source `Kusg245_250A.power_reverse`: command `"7"`, 2 received bytes,
`int.from_bytes(b[:1])` on good framing. -/
def power_reverse (b : List Nat) : Except String Nat :=
  if has_correct_termination_character b then
    Except.ok (int_from_bytes (b.take 1))
  else Except.error (err_msg_invalid_termination_character b)

/-- Python `bool.from_bytes(b)`: true exactly when some byte is nonzero. -/
def bool_from_bytes (b : List Nat) : Bool :=
  int_from_bytes b != 0

/-- Source `Kusg245_250A.external_enabled` getter: command `"r?"`, 2
received bytes, `bool.from_bytes(b[:1])` on good framing. -/
def external_enabled_get (b : List Nat) : Except String Bool :=
  if has_correct_termination_character b then
    Except.ok (bool_from_bytes (b.take 1))
  else Except.error (err_msg_invalid_termination_character b)

/-- Source `Kusg245_250A.bias_enabled` getter: command `"x?"`, 2 received
bytes, `bool.from_bytes(b[:1])` on good framing. -/
def bias_enabled_get (b : List Nat) : Except String Bool :=
  if has_correct_termination_character b then
    Except.ok (bool_from_bytes (b.take 1))
  else Except.error (err_msg_invalid_termination_character b)

/-- Source `Kusg245_250A.rf_enabled` getter: command `"o?"`, 2 received
bytes, `bool.from_bytes(b[:1])` on good framing. -/
def rf_enabled_get (b : List Nat) : Except String Bool :=
  if has_correct_termination_character b then
    Except.ok (bool_from_bytes (b.take 1))
  else Except.error (err_msg_invalid_termination_character b)

/-- Source `Kusg245_250A.pulse_mode_enabled` getter: command `"p?"`, 2
received bytes, `bool.from_bytes(b[:1])` on good framing. -/
def pulse_mode_enabled_get (b : List Nat) : Except String Bool :=
  if has_correct_termination_character b then
    Except.ok (bool_from_bytes (b.take 1))
  else Except.error (err_msg_invalid_termination_character b)

/-- Source `Kusg245_250A.phase_shift` getter: command `"H?"`, 2 received
bytes, `int.from_bytes(b[:1]) / 256.0 * 360.0` on good framing. -/
def phase_shift_get (b : List Nat) : Except String ℚ :=
  if has_correct_termination_character b then
    Except.ok ((int_from_bytes (b.take 1) : ℚ) / 256 * 360)
  else Except.error (err_msg_invalid_termination_character b)

/-- Source module constant `reflection_limit_map = {0: 0, 1: 100, 2: 150,
3: 180, 4: 200, 5: 230}`, as a partial lookup (a missing key is a Python
`KeyError`). -/
def reflection_limit_map (k : Nat) : Option ℤ :=
  if k = 0 then some 0
  else if k = 1 then some 100
  else if k = 2 then some 150
  else if k = 3 then some 180
  else if k = 4 then some 200
  else if k = 5 then some 230
  else none

/-- Source `Kusg245_250A.reflection_limit` getter: command `"B?"`, 2
received bytes; on good framing `reflection_limit_map[b[0]]`, where an
out-of-map index raises `KeyError`. -/
def reflection_limit_get (b : List Nat) : Except String ℤ :=
  if has_correct_termination_character b then
    match reflection_limit_map (b.headD 0) with
    | some v => Except.ok v
    | none => Except.error ("KeyError: " ++ pyStr (b.headD 0))
  else Except.error (err_msg_invalid_termination_character b)

/-- Modelled from the spec: pymeasure's validator `truncated_range` is not
under src/ (it lives in pymeasure/instruments/validators.py); the spec
describes it per-parameter as "truncated to [lo, hi]" (sections 4.2, 7),
i.e. values outside the closed interval are clamped to the nearer bound. -/
def truncated_range (value lo hi : ℤ) : ℤ := max lo (min hi value)

/-- Modelled from the spec: `truncated_range` at rational (Python float)
arguments, used by the phase-shift setter. -/
def truncated_range_rat (value lo hi : ℚ) : ℚ := max lo (min hi value)

/-- Modelled from the spec: pymeasure's validator `truncated_discrete_set`
is not under src/; for the reflection limit the spec says "value must be
one of the discrete set {0,100,150,180,200,230}" (section 4.2), "where the
value cannot be mapped to any legal discrete code, which is a hard
rejection" (section 7) and "any other input is rejected before
transmission" (section 8): a value outside the set raises a validation
error before any command is transmitted. -/
def truncated_discrete_set (value : ℤ) (values : List ℤ) : Except String ℤ :=
  if value ∈ values then Except.ok value else Except.error "ValueError: invalid value"

/-- Python `"%0wd"` zero-padded decimal formatting of a natural number. -/
def fmt0 (w : Nat) (n : Nat) : String :=
  ⟨List.replicate (w - (Nat.toDigits 10 n).length) '0' ++ Nat.toDigits 10 n⟩

/-- Python `round(z, -1)` on an integer: nearest multiple of 10, ties to
the even multiple (round-half-to-even). -/
def round_half_even_tens (z : ℤ) : ℤ :=
  if z % 10 < 5 then 10 * (z / 10)
  else if 5 < z % 10 then 10 * (z / 10 + 1)
  else if (z / 10) % 2 = 0 then 10 * (z / 10) else 10 * (z / 10 + 1)

/-- Python `round(x)` on a rational (float): nearest integer, ties to the
even integer (round-half-to-even). -/
def py_round (x : ℚ) : ℤ :=
  if x - ⌊x⌋ < 1 / 2 then ⌊x⌋
  else if (1 : ℚ) / 2 < x - ⌊x⌋ then ⌊x⌋ + 1
  else if ⌊x⌋ % 2 = 0 then ⌊x⌋ else ⌊x⌋ + 1

/-- Python `int(x)` on a rational (float): truncation toward zero. -/
def py_int_trunc (x : ℚ) : ℤ :=
  if 0 ≤ x then ⌊x⌋ else -⌊-x⌋

/-- Source `power_setpoint` setter: control `"A%03d"` with validator
`truncated_range` over the dynamic per-instance values
`[0, power_limit]` installed by `__init__`.  The `Instrument.control` set
path (validate, then format, then write) is not under src/ and is
modelled from the spec, section 4.2: "Power set-point: truncated to
[0, power_limit], formatted as 3-digit decimal". -/
def power_setpoint_set (power_limit value : ℤ) : String :=
  "A" ++ fmt0 3 (truncated_range value 0 power_limit).toNat

/-- Source `Kusg245_250A.tune(power)`:
`power = truncated_range(power, [0, self._power_limit])` then
`self.write(f"b{power:03d}")`. -/
def tune (power_limit power : ℤ) : String :=
  "b" ++ fmt0 3 (truncated_range power 0 power_limit).toNat

/-- Source `frequency_fine` setter: control `"f%07d"` with validator
`truncated_range` over `[2400000, 2500000]` and
`set_process=lambda v: round(v, -1)`; the `Instrument.control` set path
(validator first, then set_process, then format) is not under src/ and is
modelled from the spec, section 4.2: "Fine frequency: integer truncated to
[2,400,000, 2,500,000] kHz, rounded to the nearest 10, formatted as
7-digit decimal". -/
def frequency_fine_set (value : ℤ) : String :=
  "f" ++ fmt0 7 (round_half_even_tens (truncated_range value 2400000 2500000)).toNat

/-- Python `int(s)` on a decimal string literal (optionally signed). -/
def parse_int (s : String) : Option ℤ :=
  match s.data with
  | '-' :: rest =>
    if rest ≠ [] ∧ rest.all Char.isDigit then
      some (-(rest.foldl (fun n c => n * 10 + (c.toNat - 48)) 0 : ℤ))
    else none
  | cs =>
    if cs ≠ [] ∧ cs.all Char.isDigit then
      some ((cs.foldl (fun n c => n * 10 + (c.toNat - 48)) 0 : ℤ))
    else none

/-- Source `frequency_fine` get_process:
`lambda v: int(v[:-3]) if v.endswith("kHz") else None`. -/
def frequency_fine_get (s : String) : Option ℤ :=
  if ends_with s "kHz" then parse_int ⟨s.data.take (s.data.length - 3)⟩ else none

/-- Source `phase_shift` setter:
`value = int(round(truncated_range(value, [0, 358.6])) / 360.0 * 256.0)`
then `self.write(f"H{value:03d}")`.  Note the parenthesisation: `round` is
applied to the truncated value first, and `int` truncates the scaled
result. -/
def phase_shift_set (value : ℚ) : String :=
  "H" ++ fmt0 3
    (py_int_trunc ((py_round (truncated_range_rat value 0 (3586 / 10)) : ℚ) / 360 * 256)).toNat

/-- The conversion the claim prescribes instead, following the spec's words
(section 4.2): "converted to an 8-bit code (`round(value/360*256)`)",
with the same truncation and formatting around it. -/
def phase_shift_set_spec (value : ℚ) : String :=
  "H" ++ fmt0 3 (py_round (truncated_range_rat value 0 (3586 / 10) / 360 * 256)).toNat

/-- Source `reflection_limit` setter: validate through
`truncated_discrete_set(value, reflection_limit_map.values())`, map the
result through the inverted `reflection_limit_map`, and write
`f"B{value:d}"`. -/
def reflection_limit_set (value : ℤ) : Except String String :=
  match truncated_discrete_set value [0, 100, 150, 180, 200, 230] with
  | Except.error e => Except.error e
  | Except.ok v =>
    match (List.range 6).find? (fun k => reflection_limit_map k = some v) with
    | some code => Except.ok ("B" ++ pyStr code)
    | none => Except.error ("KeyError: " ++ toString v)

/-! ## Helper lemmas -/

/-- Core decimal-rendering bound: with enough fuel, a number below `10 ^ k`
renders to at most `k` digits on top of the accumulator. -/
theorem toDigitsCore_length_le (fuel : Nat) : ∀ (n : Nat) (ds : List Char) (k : Nat),
    n < 10 ^ k → 0 < k → (Nat.toDigitsCore 10 fuel n ds).length ≤ ds.length + k := by
  induction fuel with
  | zero =>
    intro n ds k _ _
    simp only [Nat.toDigitsCore]
    omega
  | succ fuel ih =>
    intro n ds k h hk
    simp only [Nat.toDigitsCore]
    by_cases h10 : n / 10 = 0
    · rw [if_pos h10]
      simp only [List.length_cons]
      omega
    · rw [if_neg h10]
      have hk2 : 2 ≤ k := by
        rcases Nat.lt_or_ge n 10 with hn | hn
        · exact absurd (Nat.div_eq_of_lt hn) h10
        · by_contra hlt
          have hk1 : k = 1 := by omega
          subst hk1
          simp at h
          omega
      have hdiv : n / 10 < 10 ^ (k - 1) := by
        rw [Nat.div_lt_iff_lt_mul (by norm_num : 0 < 10)]
        calc n < 10 ^ k := h
        _ = 10 ^ (k - 1) * 10 := by
              rw [← Nat.pow_succ]
              congr 1
              omega
      have := ih (n / 10) (Nat.digitChar (n % 10) :: ds) (k - 1) hdiv (by omega)
      simp only [List.length_cons] at this
      omega

/-- A number below `10 ^ k` has at most `k` decimal digits. -/
theorem toDigits_length_le (n k : Nat) (h : n < 10 ^ k) (hk : 0 < k) :
    (Nat.toDigits 10 n).length ≤ k := by
  have := toDigitsCore_length_le (n + 1) n [] k h hk
  simpa [Nat.toDigits] using this

/-- Zero-padded formatting has exactly the requested width once the digit
count fits. -/
theorem fmt0_length (w n : Nat) (h : (Nat.toDigits 10 n).length ≤ w) :
    (fmt0 w n).length = w := by
  simp only [fmt0, String.length]
  simp only [List.length_append, List.length_replicate]
  omega

/-- The bias-enable command `"X"` expects an acknowledgement. -/
@[simp] theorem is_expecting_acknowledgement_bias_on :
    is_expecting_acknowledgement "X" = true := by decide

/-- The bias-disable command `"x"` expects an acknowledgement. -/
@[simp] theorem is_expecting_acknowledgement_bias_off :
    is_expecting_acknowledgement "x" = true := by decide

/-- The RF-enable command `"O"` expects an acknowledgement. -/
@[simp] theorem is_expecting_acknowledgement_rf_on :
    is_expecting_acknowledgement "O" = true := by decide

/-- The RF-disable command `"o"` expects an acknowledgement. -/
@[simp] theorem is_expecting_acknowledgement_rf_off :
    is_expecting_acknowledgement "o" = true := by decide

/-- `round_half_even_tens` returns a multiple of 10 within distance 5. -/
theorem round_half_even_tens_spec (z : ℤ) :
    round_half_even_tens z % 10 = 0 ∧
      z - 5 ≤ round_half_even_tens z ∧ round_half_even_tens z ≤ z + 5 := by
  unfold round_half_even_tens
  have h1 : z = 10 * (z / 10) + z % 10 := (Int.ediv_add_emod z 10).symm
  have h2 : 0 ≤ z % 10 := Int.emod_nonneg z (by norm_num)
  have h3 : z % 10 < 10 := Int.emod_lt_of_pos z (by norm_num)
  split_ifs <;> omega

/-! ## Claim theorems -/

/-- Claim C1: every command sent by the handler's `write` either is in the
allow-list `v`,`5`,`8`,`6`,`7`,`T` or ends in `?` — and then no
acknowledgement token is read — or else exactly one reply token is read
and, when it is not `"A"`, the operation fails with the Protocol Violation
error `"Expected acknowledgment."` with no further bytes written in that
exchange. -/
theorem write_acknowledgement_rule (command tok : String) (rest : List String) :
    (is_expecting_acknowledgement command = false ↔
      command ∈ ["v", "5", "8", "6", "7", "T"] ∨ ends_with command "?" = true) ∧
    (is_expecting_acknowledgement command = false →
      write (tok :: rest) command = ([Event.wr command], Except.ok (tok :: rest))) ∧
    (is_expecting_acknowledgement command = true → tok ≠ "A" →
      write (tok :: rest) command =
        ([Event.wr command, Event.rd tok], Except.error "Expected acknowledgment.")) ∧
    (is_expecting_acknowledgement command = true → tok = "A" →
      write (tok :: rest) command = ([Event.wr command, Event.rd tok], Except.ok rest)) := by
  refine ⟨?_, ?_, ?_, ?_⟩
  · unfold is_expecting_acknowledgement
    by_cases h1 : command ∈ ["v", "5", "8", "6", "7", "T"] <;>
      by_cases h2 : ends_with command "?" = true <;> simp [h1, h2]
  · intro h
    simp [write, h]
  · intro h hA
    simp [write, h, hA]
  · intro h hA
    subst hA
    simp [write, h]

/-- Witness for C1 at the concrete command `"X"` and reply `"B"`. -/
theorem write_acknowledgement_rule_witness :
    write ["B"] "X" =
      ([Event.wr "X", Event.rd "B"], Except.error "Expected acknowledgment.") :=
  (write_acknowledgement_rule "X" "B" []).2.2.1 (by decide) (by decide)

/-- Claim C2: every binary-response accessor, on a received byte sequence
whose last byte is not the termination byte `'\r'`, raises a Framing Error
(`ConnectionError`) whose message reports the offending last byte in
hexadecimal, and returns no value.  The accessors are pure functions of
the received bytes: no handler state exists for them to update. -/
theorem framing_error_on_bad_termination (b : List Nat) (_hb : b ≠ [])
    (hbad : b.getLastD 0 ≠ termination_character) :
    voltage_5v b = Except.error (err_msg_invalid_termination_character b) ∧
    voltage_32v b = Except.error (err_msg_invalid_termination_character b) ∧
    power_forward b = Except.error (err_msg_invalid_termination_character b) ∧
    power_reverse b = Except.error (err_msg_invalid_termination_character b) ∧
    external_enabled_get b = Except.error (err_msg_invalid_termination_character b) ∧
    bias_enabled_get b = Except.error (err_msg_invalid_termination_character b) ∧
    rf_enabled_get b = Except.error (err_msg_invalid_termination_character b) ∧
    pulse_mode_enabled_get b = Except.error (err_msg_invalid_termination_character b) ∧
    phase_shift_get b = Except.error (err_msg_invalid_termination_character b) ∧
    reflection_limit_get b = Except.error (err_msg_invalid_termination_character b) ∧
    err_msg_invalid_termination_character b =
      "Invalid termination character received: " ++ pyHex (b.getLastD 0) := by
  have hterm : has_correct_termination_character b = false := by
    unfold has_correct_termination_character
    simp only [beq_eq_false_iff_ne, ne_eq]
    exact hbad
  refine ⟨?_, ?_, ?_, ?_, ?_, ?_, ?_, ?_, ?_, ?_, rfl⟩ <;>
    simp [voltage_5v, voltage_32v, power_forward, power_reverse,
      external_enabled_get, bias_enabled_get, rf_enabled_get,
      pulse_mode_enabled_get, phase_shift_get, reflection_limit_get, hterm]

/-- Witness for C2 at the concrete received frame `[0x41]`. -/
theorem framing_error_on_bad_termination_witness :
    voltage_5v [65] = Except.error "Invalid termination character received: 0x41" := by
  rw [(framing_error_on_bad_termination [65] (by decide) (by decide)).1]
  decide

/-- Claim C3: for an instance with `0 < power_limit ≤ 250`, both `tune`
and the `power_setpoint` setter clamp the requested power into
`[0, power_limit]` and emit a 3-character zero-padded decimal command; in
particular with `power_limit = 100` a request of 150 transmits `"A100"`
(and `tune` transmits `"b100"`), not `"A150"`. -/
theorem power_setpoint_and_tune_clamped (power_limit value : ℤ)
    (h1 : 0 < power_limit) (h2 : power_limit ≤ 250) :
    0 ≤ truncated_range value 0 power_limit ∧
    truncated_range value 0 power_limit ≤ power_limit ∧
    power_setpoint_set power_limit value =
      "A" ++ fmt0 3 (truncated_range value 0 power_limit).toNat ∧
    tune power_limit value = "b" ++ fmt0 3 (truncated_range value 0 power_limit).toNat ∧
    (fmt0 3 (truncated_range value 0 power_limit).toNat).length = 3 ∧
    power_setpoint_set 100 150 = "A100" ∧ tune 100 150 = "b100" := by
  have hlo : 0 ≤ truncated_range value 0 power_limit := le_max_left _ _
  have hhi : truncated_range value 0 power_limit ≤ power_limit :=
    max_le h1.le (min_le_left _ _)
  refine ⟨hlo, hhi, rfl, rfl, ?_, by decide, by decide⟩
  apply fmt0_length
  apply toDigits_length_le
  · have h1000 : (10 : ℕ) ^ 3 = 1000 := by norm_num
    omega
  · norm_num

/-- Witness for C3 at `power_limit = 100`, requested power 150. -/
theorem power_setpoint_and_tune_clamped_witness :
    0 ≤ truncated_range 150 0 100 ∧
    truncated_range 150 0 100 ≤ 100 ∧
    power_setpoint_set 100 150 = "A" ++ fmt0 3 (truncated_range 150 0 100).toNat ∧
    tune 100 150 = "b" ++ fmt0 3 (truncated_range 150 0 100).toNat ∧
    (fmt0 3 (truncated_range 150 0 100).toNat).length = 3 ∧
    power_setpoint_set 100 150 = "A100" ∧ tune 100 150 = "b100" :=
  power_setpoint_and_tune_clamped 100 150 (by decide) (by decide)

/-- Case analysis of the event trace of `turn_on`: the possible traces,
depending on the reply queue, always start with the bias-enable write and
only reach the RF-enable write after the 500 ms sleep. -/
theorem turn_on_trace_cases (replies : List String) :
    (turn_on replies).1 = [Event.wr "X"] ∨
    (∃ tok, (turn_on replies).1 = [Event.wr "X", Event.rd tok] ∧ tok ≠ "A") ∨
    (turn_on replies).1 = [Event.wr "X", Event.rd "A", Event.sleep 500, Event.wr "O"] ∨
    (∃ tok2, (turn_on replies).1 =
      [Event.wr "X", Event.rd "A", Event.sleep 500, Event.wr "O", Event.rd tok2]) := by
  rcases replies with _ | ⟨tok, rest⟩
  · left
    simp [turn_on, write]
  · by_cases hA : tok = "A"
    · subst hA
      rcases rest with _ | ⟨tok2, r2⟩
      · right; right; left
        simp [turn_on, write]
      · right; right; right
        exact ⟨tok2, by simp [turn_on, write]⟩
    · right; left
      exact ⟨tok, by simp [turn_on, write, hA], hA⟩

/-- Case analysis of the event trace of `shutdown`: the possible traces
always start with the RF-disable write and only reach the bias-disable
write afterwards. -/
theorem shutdown_trace_cases (replies : List String) :
    (shutdown replies).1 = [Event.wr "o"] ∨
    (∃ tok, (shutdown replies).1 = [Event.wr "o", Event.rd tok] ∧ tok ≠ "A") ∨
    (shutdown replies).1 = [Event.wr "o", Event.rd "A", Event.wr "x"] ∨
    (∃ tok2, (shutdown replies).1 =
      [Event.wr "o", Event.rd "A", Event.wr "x", Event.rd tok2]) := by
  rcases replies with _ | ⟨tok, rest⟩
  · left
    simp [shutdown, write]
  · by_cases hA : tok = "A"
    · subst hA
      rcases rest with _ | ⟨tok2, r2⟩
      · right; right; left
        simp [shutdown, write]
      · right; right; right
        exact ⟨tok2, by simp [shutdown, write]⟩
    · right; left
      exact ⟨tok, by simp [shutdown, write, hA], hA⟩

/-- Claim C4: whatever the device replies, whenever `turn_on` writes the
RF-enable command `"O"` there are strictly earlier trace positions holding
the bias-enable write `"X"` and, strictly between them, the non-zero
500 ms delay; and whenever `shutdown` writes the bias-disable command
`"x"` there is a strictly earlier RF-disable write `"o"`. -/
theorem turn_on_and_shutdown_ordering (replies : List String) :
    (∀ k, ((turn_on replies).1).get? k = some (Event.wr "O") →
      ∃ i j, i < j ∧ j < k ∧ ((turn_on replies).1).get? i = some (Event.wr "X") ∧
        ((turn_on replies).1).get? j = some (Event.sleep 500)) ∧
    (∀ k, ((shutdown replies).1).get? k = some (Event.wr "x") →
      ∃ i, i < k ∧ ((shutdown replies).1).get? i = some (Event.wr "o")) := by
  constructor
  · intro k hk
    rcases turn_on_trace_cases replies with h | ⟨tok, h, _⟩ | h | ⟨tok2, h⟩ <;>
        rw [h] at hk ⊢
    · rcases k with _ | k
      · simp at hk
      · simp [List.get?] at hk
    · rcases k with _ | _ | k
      · simp at hk
      · simp at hk
      · simp [List.get?] at hk
    · rcases k with _ | _ | _ | _ | k
      · simp at hk
      · simp at hk
      · simp at hk
      · exact ⟨0, 2, by omega, by omega, rfl, rfl⟩
      · simp [List.get?] at hk
    · rcases k with _ | _ | _ | _ | _ | k
      · simp at hk
      · simp at hk
      · simp at hk
      · exact ⟨0, 2, by omega, by omega, rfl, rfl⟩
      · simp at hk
      · simp [List.get?] at hk
  · intro k hk
    rcases shutdown_trace_cases replies with h | ⟨tok, h, _⟩ | h | ⟨tok2, h⟩ <;>
        rw [h] at hk ⊢
    · rcases k with _ | k
      · simp at hk
      · simp [List.get?] at hk
    · rcases k with _ | _ | k
      · simp at hk
      · simp at hk
      · simp [List.get?] at hk
    · rcases k with _ | _ | _ | k
      · simp at hk
      · simp at hk
      · exact ⟨0, by omega, rfl⟩
      · simp [List.get?] at hk
    · rcases k with _ | _ | _ | _ | k
      · simp at hk
      · simp at hk
      · exact ⟨0, by omega, rfl⟩
      · simp at hk
      · simp [List.get?] at hk

/-- Witness for C4 on the reply queue `["A", "A"]` (both commands
acknowledged). -/
theorem turn_on_and_shutdown_ordering_witness :
    (∃ i j, i < j ∧ j < 3 ∧
      ((turn_on ["A", "A"]).1).get? i = some (Event.wr "X") ∧
      ((turn_on ["A", "A"]).1).get? j = some (Event.sleep 500)) ∧
    (∃ i, i < 2 ∧ ((shutdown ["A", "A"]).1).get? i = some (Event.wr "o")) :=
  ⟨(turn_on_and_shutdown_ordering ["A", "A"]).1 3 (by decide),
    (turn_on_and_shutdown_ordering ["A", "A"]).2 2 (by decide)⟩

/-- Claim C5 (code-bug evidence): the 5 V and 32 V decoders call
`int.from_bytes(b[:2])` without a byteorder argument, so the two data
bytes are decoded big-endian, although the module's own
`byteorder = 'little'` constant and the spec prescribe little-endian.  On
the frame `[0xE4, 0x00, 0x0D]` (raw little-endian 228, about 5.0 V) the
code computes `103/4700 * 58368` (about 1279 V) instead of
`103/4700 * 228`. -/
theorem voltage_decoders_use_big_endian :
    voltage_5v [228, 0, 13] = Except.ok ((103 : ℚ) / 4700 * 58368) ∧
    voltage_32v [228, 0, 13] = Except.ok ((1282 : ℚ) / 8200 * 58368) ∧
    int_from_bytes [228, 0] = 58368 ∧
    int_from_bytes_le [228, 0] = 228 ∧
    ((103 : ℚ) / 4700 * 58368 ≠ (103 : ℚ) / 4700 * 228) := by
  refine ⟨?_, ?_, by decide, by decide, by norm_num⟩
  · rw [voltage_5v]
    norm_num [has_correct_termination_character, termination_character, int_from_bytes]
  · rw [voltage_32v]
    norm_num [has_correct_termination_character, termination_character, int_from_bytes]

/-- Claim C6: a reflection-limit request outside the discrete set
`{0, 100, 150, 180, 200, 230}` is rejected with a Validation Error and no
command string is produced for transmission. -/
theorem reflection_limit_set_rejects (value : ℤ)
    (h : value ∉ ([0, 100, 150, 180, 200, 230] : List ℤ)) :
    reflection_limit_set value = Except.error "ValueError: invalid value" := by
  simp [reflection_limit_set, truncated_discrete_set, h]

/-- Witness for C6 at the out-of-set request 120. -/
theorem reflection_limit_set_rejects_witness :
    reflection_limit_set 120 = Except.error "ValueError: invalid value" :=
  reflection_limit_set_rejects 120 (by decide)

/-- Counterexample for C7: the fine-frequency setter transmits
`"f2450000"` for an input of 2450005 kHz, not `"f2450010"` as the claim's
nearest-10 example states, because Python's `round` breaks the halfway
tie to the even multiple of 10. -/
theorem frequency_fine_round_counterexample :
    frequency_fine_set 2450005 = "f2450000" ∧ frequency_fine_set 2450005 ≠ "f2450010" := by
  constructor <;> decide

/-- Claim C7 (amended): setting `frequency_fine` truncates the value into
`[2400000, 2500000]` kHz and rounds it to a multiple of 10 at distance at
most 5 (Python banker's rounding, ties to the even multiple, so
2450005 maps to 2450000), formatted as a 7-digit decimal; decoding the
response `"2450010kHz"` yields the integer 2450010. -/
theorem frequency_fine_set_clamps_and_rounds (value : ℤ) :
    ∃ n : ℕ, 2400000 ≤ n ∧ n ≤ 2500000 ∧ n % 10 = 0 ∧
      (n : ℤ) - truncated_range value 2400000 2500000 ≤ 5 ∧
      truncated_range value 2400000 2500000 - (n : ℤ) ≤ 5 ∧
      frequency_fine_set value = "f" ++ fmt0 7 n ∧
      (fmt0 7 n).length = 7 ∧
      frequency_fine_get "2450010kHz" = some 2450010 ∧
      frequency_fine_set 2450005 = "f2450000" := by
  have hlo : (2400000 : ℤ) ≤ truncated_range value 2400000 2500000 := le_max_left _ _
  have hhi : truncated_range value 2400000 2500000 ≤ 2500000 :=
    max_le (by norm_num) (min_le_left _ _)
  have hr := round_half_even_tens_spec (truncated_range value 2400000 2500000)
  refine ⟨(round_half_even_tens (truncated_range value 2400000 2500000)).toNat,
    by omega, by omega, by omega, by omega, by omega, rfl, ?_, by decide, by decide⟩
  apply fmt0_length
  apply toDigits_length_le
  · have hpow : (10 : ℕ) ^ 7 = 10000000 := by norm_num
    omega
  · norm_num

/-- Counterexample for C8: at input 1 degree the claim's prescribed
conversion `round(value/360*256)` would transmit `"H001"`, but the code
computes `int(round(1)/360*256) = int(0.711...) = 0` and transmits
`"H000"`. -/
theorem phase_shift_formula_counterexample :
    phase_shift_set 1 = "H000" ∧ phase_shift_set_spec 1 = "H001" ∧
    phase_shift_set 1 ≠ phase_shift_set_spec 1 := by
  have h1 : truncated_range_rat 1 0 (3586 / 10) = 1 := by
    norm_num [truncated_range_rat, min_def, max_def]
  have h2 : py_round 1 = 1 := by norm_num [py_round]
  have h2q : py_round ((1 : ℚ) / 360 * 256) = 1 := by norm_num [py_round]
  have h3 : py_int_trunc (((1 : ℤ) : ℚ) / 360 * 256) = 0 := by norm_num [py_int_trunc]
  have ha : phase_shift_set 1 = "H000" := by
    rw [phase_shift_set, h1, h2, h3]
    rfl
  have hb : phase_shift_set_spec 1 = "H001" := by
    rw [phase_shift_set_spec, h1, h2q]
    rfl
  refine ⟨ha, hb, ?_⟩
  rw [ha, hb]
  decide

/-- Claim C8 (amended): setting `phase_shift` truncates the value into
`[0, 358.6]` degrees, rounds it to the nearest whole degree (ties to
even), and converts that rounded degree `d` to the 8-bit code
`floor(d/360*256)` — truncation, not rounding, of the scaled value —
always at most 255, transmitted as a 3-digit zero-padded decimal. -/
theorem phase_shift_set_code (value : ℚ) :
    ∃ c : ℕ, c ≤ 255 ∧
      phase_shift_set value = "H" ++ fmt0 3 c ∧ (fmt0 3 c).length = 3 ∧
      (c : ℤ) = ⌊(py_round (truncated_range_rat value 0 (3586 / 10)) : ℚ) / 360 * 256⌋ := by
  have h0 : (0 : ℚ) ≤ truncated_range_rat value 0 (3586 / 10) := le_max_left _ _
  have h1 : truncated_range_rat value 0 (3586 / 10) ≤ 3586 / 10 :=
    max_le (by norm_num) (min_le_left _ _)
  have hf0 : 0 ≤ ⌊truncated_range_rat value 0 (3586 / 10)⌋ := Int.floor_nonneg.mpr h0
  have hf1 : ⌊truncated_range_rat value 0 (3586 / 10)⌋ ≤ 358 := by
    have hmono := Int.floor_le_floor h1
    have h358 : (⌊(3586 / 10 : ℚ)⌋ : ℤ) = 358 := by norm_num
    omega
  have hr : 0 ≤ py_round (truncated_range_rat value 0 (3586 / 10)) ∧
      py_round (truncated_range_rat value 0 (3586 / 10)) ≤ 359 := by
    unfold py_round
    split_ifs <;> omega
  set d := py_round (truncated_range_rat value 0 (3586 / 10)) with hd
  have hq0 : (0 : ℚ) ≤ (d : ℚ) / 360 * 256 := by
    have : (0 : ℚ) ≤ (d : ℚ) := by exact_mod_cast hr.1
    positivity
  have hq1 : (d : ℚ) / 360 * 256 < 256 := by
    have hdle : (d : ℚ) ≤ 359 := by exact_mod_cast hr.2
    rw [div_mul_eq_mul_div, div_lt_iff₀ (by norm_num : (0 : ℚ) < 360)]
    nlinarith
  have hfl0 : 0 ≤ ⌊(d : ℚ) / 360 * 256⌋ := Int.floor_nonneg.mpr hq0
  have hfl1 : ⌊(d : ℚ) / 360 * 256⌋ ≤ 255 := by
    have : ⌊(d : ℚ) / 360 * 256⌋ < 256 := Int.floor_lt.mpr (by exact_mod_cast hq1)
    omega
  have htr : py_int_trunc ((d : ℚ) / 360 * 256) = ⌊(d : ℚ) / 360 * 256⌋ := by
    unfold py_int_trunc
    rw [if_pos hq0]
  refine ⟨(⌊(d : ℚ) / 360 * 256⌋).toNat, by omega, ?_, ?_, by omega⟩
  · rw [phase_shift_set, ← hd, htr]
  · apply fmt0_length
    apply toDigits_length_le
    · have hpow : (10 : ℕ) ^ 3 = 1000 := by norm_num
      omega
    · norm_num

/-- Claim C9: every value in the discrete set `{0, 100, 150, 180, 200,
230}` is accepted by the reflection-limit setter, transmitted as its
device code, and decoding a well-terminated response carrying that code
yields the value back; every code byte outside the fixed map (6 and up)
makes the getter raise a decode error instead of returning a value. -/
theorem reflection_limit_round_trip :
    (∀ v : ℤ, v ∈ ([0, 100, 150, 180, 200, 230] : List ℤ) →
      ∃ code : Nat, reflection_limit_set v = Except.ok ("B" ++ pyStr code) ∧
        reflection_limit_get [code, termination_character] = Except.ok v) ∧
    (∀ code : Nat, 6 ≤ code →
      reflection_limit_get [code, termination_character] =
        Except.error ("KeyError: " ++ pyStr code)) := by
  constructor
  · intro v hv
    fin_cases hv
    · exact ⟨0, by decide, by decide⟩
    · exact ⟨1, by decide, by decide⟩
    · exact ⟨2, by decide, by decide⟩
    · exact ⟨3, by decide, by decide⟩
    · exact ⟨4, by decide, by decide⟩
    · exact ⟨5, by decide, by decide⟩
  · intro code hcode
    have hmap : reflection_limit_map code = none := by
      unfold reflection_limit_map
      split_ifs <;> first | rfl | omega
    simp [reflection_limit_get, has_correct_termination_character,
      termination_character, hmap]

/-- Witness for C9 at the in-set value 230 and the out-of-map code 7. -/
theorem reflection_limit_round_trip_witness :
    (∃ code : Nat, reflection_limit_set 230 = Except.ok ("B" ++ pyStr code) ∧
      reflection_limit_get [code, termination_character] = Except.ok 230) ∧
    reflection_limit_get [7, termination_character] =
      Except.error ("KeyError: " ++ pyStr 7) :=
  ⟨reflection_limit_round_trip.1 230 (by decide),
    reflection_limit_round_trip.2 7 (by decide)⟩

/-- Claim C10: when the first command of a compound operation receives a
reply other than `"A"`, the operation raises the Protocol Violation error
and the second command is never written: `turn_on` stops after the
bias-enable write, `shutdown` stops after the RF-disable write. -/
theorem compound_aborts_on_failed_ack (tok : String) (rest : List String) (h : tok ≠ "A") :
    turn_on (tok :: rest) =
      ([Event.wr "X", Event.rd tok], Except.error "Expected acknowledgment.") ∧
    shutdown (tok :: rest) =
      ([Event.wr "o", Event.rd tok], Except.error "Expected acknowledgment.") := by
  constructor <;> simp [turn_on, shutdown, write, h]

/-- Witness for C10 at the concrete failing reply `"B"`. -/
theorem compound_aborts_on_failed_ack_witness :
    turn_on ["B"] =
      ([Event.wr "X", Event.rd "B"], Except.error "Expected acknowledgment.") ∧
    shutdown ["B"] =
      ([Event.wr "o", Event.rd "B"], Except.error "Expected acknowledgment.") :=
  compound_aborts_on_failed_ack "B" [] (by decide)

end Kusg
